import Mathlib

/-!
Verification of the retirement portfolio projection core of `src/task-2/src/App.js`.

The JavaScript numbers are modelled as exact rationals (`ℚ`).  JavaScript
floating-point division yields NaN or ±Infinity when the divisor is zero, i.e.
no finite real; this is modelled by `jsDiv` returning `Option ℚ`, where `none`
stands for a non-finite result (NaN propagation is modelled with `Option.map`).
Elapsed years are modelled as natural numbers: every call site of
`calculateFutureValue` passes a whole number of years (the validated
`yearsToRetirement`, whose spec type is an integer in [1,70], and the chart
loop counter), so the exponent `n*t` is a natural number.
-/

/-- JavaScript division, `none` when the divisor is zero (JS would produce
NaN or ±Infinity there, never a finite real). -/
def jsDiv (x y : ℚ) : Option ℚ :=
  if y = 0 then none else some (x / y)

/-- JavaScript `Math.round`: rounds half toward positive infinity. -/
def jsRound (x : ℚ) : ℤ :=
  Int.floor (x + 1 / 2)

/-- `calculateFutureValue` from App.js lines 30-43:
`r = annualRate / 100`, `n = 12`, growth factor `(1 + r/n)^(n*t)`,
principal component `principal * g`, contribution component
`monthlyContrib * (g - 1) / (r/n)` with NO zero-rate guard on the division. -/
def calculateFutureValue (principal monthlyContrib annualRate : ℚ) (years : ℕ) : Option ℚ :=
  let r : ℚ := annualRate / 100
  let n : ℕ := 12
  let t : ℕ := years
  let fvPrincipal : ℚ := principal * (1 + r / (n : ℚ)) ^ (n * t)
  let monthlyRate : ℚ := r / (n : ℚ)
  (jsDiv (monthlyContrib * ((1 + monthlyRate) ^ (n * t) - 1)) monthlyRate).map
    (fun fvContributions => fvPrincipal + fvContributions)

/-- `calculateMonthlyIncome` from App.js lines 53-63: fixed 4% annual rate,
monthly rate 0.04/12, 240 payments,
`PMT = PV * (rm * (1+rm)^240) / ((1+rm)^240 - 1)`.  The divisor is the
nonzero constant `(1+1/300)^240 - 1`, so plain division is exact here. -/
def calculateMonthlyIncome (retirementBalance : ℚ) : ℚ :=
  let annualRate : ℚ := 4 / 100
  let monthlyRate : ℚ := annualRate / 12
  let totalPayments : ℕ := 20 * 12
  retirementBalance * (monthlyRate * (1 + monthlyRate) ^ totalPayments) /
    ((1 + monthlyRate) ^ totalPayments - 1)

/-- The four raw input fields (App.js state `inputs`).  `yearsToRetirement`
is a whole number of years (spec data model: integer in [1,70]). -/
structure Inputs where
  currentBalance : ℚ
  monthlyContribution : ℚ
  expectedReturn : ℚ
  yearsToRetirement : ℕ
deriving DecidableEq

/-- The error object built by `validateInputs`: one optional message per
field (a JS object with at most these four keys). -/
structure ValidationErrors where
  currentBalance : Option String
  monthlyContribution : Option String
  expectedReturn : Option String
  yearsToRetirement : Option String
deriving DecidableEq

/-- `validateInputs` from App.js lines 83-103.  Each JS truthiness test
`!x` on a number is `x = 0` (inputs are produced by
`parseFloat(value) || 0`, hence always actual numbers; `!x` holds exactly
for 0). -/
def validateInputs (inputValues : Inputs) : ValidationErrors :=
  { currentBalance :=
      if inputValues.currentBalance = 0 ∨ inputValues.currentBalance < 0 then
        some "Current balance must be a positive number"
      else none,
    monthlyContribution :=
      if inputValues.monthlyContribution < 0 then
        some "Monthly contribution cannot be negative"
      else none,
    expectedReturn :=
      if inputValues.expectedReturn = 0 ∨ inputValues.expectedReturn < -20 ∨
          50 < inputValues.expectedReturn then
        some "Expected return should be between -20% and 50%"
      else none,
    yearsToRetirement :=
      if inputValues.yearsToRetirement = 0 ∨ inputValues.yearsToRetirement < 1 ∨
          70 < inputValues.yearsToRetirement then
        some "Years to retirement should be between 1 and 70"
      else none }

/-- `Object.keys(validationErrors).length > 0`: the error object is
non-empty. -/
def hasErrors (e : ValidationErrors) : Bool :=
  e.currentBalance.isSome || e.monthlyContribution.isSome ||
    e.expectedReturn.isSome || e.yearsToRetirement.isSome

/-- The base result object (`projected_value` / `monthly_income`, rounded to
cents).  Fields are `Option ℚ` because they inherit possible NaN from
`calculateFutureValue`. -/
structure BaseResult where
  projected_value : Option ℚ
  monthly_income : Option ℚ
deriving DecidableEq

/-- One scenario object from the `scenarioData` array.  `monthlyIncome` is
`none` before the `forEach` pass fills it in; after that pass, `none` means
the JS value was NaN. -/
structure Scenario where
  name : String
  rate : ℚ
  projectedValue : Option ℚ
  color : String
  monthlyIncome : Option ℚ
deriving DecidableEq

/-- One chart data point: `{ year, [scenario.name]: Math.round(balance) }`. -/
structure ChartPoint where
  year : ℕ
  balances : List (String × Option ℤ)
deriving DecidableEq

/-- The derived React state set by `calculateResults`:
`results` (null or base result), `scenarios`, `chartData`, `errors`. -/
structure AppState where
  results : Option BaseResult
  scenarios : List Scenario
  chartData : List ChartPoint
  errors : ValidationErrors
deriving DecidableEq

/-- `calculateResults` from App.js lines 108-177: validate, clear everything
when any error exists, otherwise compute the base result, the three
scenarios (conservative rate `max(expectedReturn - 2, 1)`, base rate,
optimistic rate `expectedReturn + 2`), the `forEach` pass adding
`monthlyIncome`, and the chart data for years `0..min(yearsToRetirement, 40)`. -/
def calculateResults (inputs : Inputs) : AppState :=
  let validationErrors := validateInputs inputs
  if hasErrors validationErrors then
    { results := none, scenarios := [], chartData := [], errors := validationErrors }
  else
    let currentBalance := inputs.currentBalance
    let monthlyContribution := inputs.monthlyContribution
    let expectedReturn := inputs.expectedReturn
    let yearsToRetirement := inputs.yearsToRetirement
    let projectedValue :=
      calculateFutureValue currentBalance monthlyContribution expectedReturn yearsToRetirement
    let monthlyIncome := projectedValue.map calculateMonthlyIncome
    let baseResult : BaseResult :=
      { projected_value := projectedValue.map (fun v => (jsRound (v * 100) : ℚ) / 100),
        monthly_income := monthlyIncome.map (fun v => (jsRound (v * 100) : ℚ) / 100) }
    let conservativeRate := max (expectedReturn - 2) 1
    let optimisticRate := expectedReturn + 2
    let scenarioData : List Scenario :=
      [ { name := "Conservative", rate := conservativeRate,
          projectedValue :=
            calculateFutureValue currentBalance monthlyContribution conservativeRate
              yearsToRetirement,
          color := "#ef4444", monthlyIncome := none },
        { name := "Base Case", rate := expectedReturn,
          projectedValue := projectedValue,
          color := "#3b82f6", monthlyIncome := none },
        { name := "Optimistic", rate := optimisticRate,
          projectedValue :=
            calculateFutureValue currentBalance monthlyContribution optimisticRate
              yearsToRetirement,
          color := "#10b981", monthlyIncome := none } ]
    let scenarioData2 := scenarioData.map
      (fun s => { s with monthlyIncome := s.projectedValue.map calculateMonthlyIncome })
    let chartYears := min yearsToRetirement 40
    let data := (List.range (chartYears + 1)).map (fun year =>
      { year := year,
        balances := scenarioData2.map (fun s =>
          (s.name,
           (calculateFutureValue currentBalance monthlyContribution s.rate year).map jsRound))
        : ChartPoint })
    { results := some baseResult, scenarios := scenarioData2, chartData := data,
      errors := validationErrors }

/-- Claim C1: with annual rate exactly 0, `calculateFutureValue` never
returns the linear accumulation `P + C*12*t`; the unguarded contribution
term divides by the zero monthly rate, so the result is not a finite real
(`none`, modelling NaN) for every principal, contribution and year count —
in particular at principal 100, contribution 10, years 2, where the claimed
guard would give 340. -/
theorem calculateFutureValue_zero_rate_is_nan :
    (∀ (P C : ℚ) (t : ℕ), calculateFutureValue P C 0 t = none) ∧
      calculateFutureValue 100 10 0 2 = none := by
  have h : ∀ (P C : ℚ) (t : ℕ), calculateFutureValue P C 0 t = none := by
    intro P C t
    simp [calculateFutureValue, jsDiv]
  exact ⟨h, h 100 10 2⟩

/-- Claim C3: at zero elapsed years, `calculateFutureValue P 0 r 0` equals
`some P` exactly when `r ≠ 0`; at `r = 0` the unguarded division `0/0`
makes the result NaN (`none`) rather than `P`. -/
theorem calculateFutureValue_zero_years (P r : ℚ) :
    calculateFutureValue P 0 r 0 = if r = 0 then none else some P := by
  by_cases h : r = 0
  · subst h
    simp [calculateFutureValue, jsDiv]
  · have hm : r / (100 : ℚ) / (12 : ℚ) ≠ 0 := by
      simp [div_eq_zero_iff, h]
    simp [calculateFutureValue, jsDiv, hm, h]

/-- Claim C4 counterexample: the value 0 lies in the closed interval
[-20, 50], yet the validator produces an error entry for
`expectedReturn = 0` (the JS falsy presence check rejects it). -/
theorem validateInputs_rejects_zero_return :
    (validateInputs ⟨50000, 1000, 0, 30⟩).expectedReturn.isSome = true ∧
      ((-20 : ℚ) ≤ 0 ∧ (0 : ℚ) ≤ 50) := by
  norm_num [validateInputs]

/-- Claim C4 (amended): the validator accepts an `expectedReturn` value
(no error entry for that field) iff it lies in [-20, 50] and is nonzero
(0 is rejected by the falsy presence check); in particular -20 is accepted
and -20.01 is rejected. -/
theorem validateInputs_expectedReturn_range :
    (∀ i : Inputs, (validateInputs i).expectedReturn = none ↔
        (i.expectedReturn ≠ 0 ∧ -20 ≤ i.expectedReturn ∧ i.expectedReturn ≤ 50)) ∧
      (validateInputs ⟨50000, 1000, -20, 30⟩).expectedReturn = none ∧
      (validateInputs ⟨50000, 1000, -2001/100, 30⟩).expectedReturn.isSome = true := by
  refine ⟨fun i => ?_, by norm_num [validateInputs], by norm_num [validateInputs]⟩
  simp [validateInputs, ite_eq_right_iff, not_or, not_lt, and_assoc]

/-- Claim C5: validation rules are independent and never short-circuited —
every violated rule contributes its own error entry whatever the other
fields hold, and the concrete input with `currentBalance = -1` and
`yearsToRetirement = 0` gets both corresponding entries simultaneously. -/
theorem validateInputs_reports_every_violation :
    (∀ i : Inputs,
        ((i.currentBalance = 0 ∨ i.currentBalance < 0) →
          (validateInputs i).currentBalance.isSome = true) ∧
        (i.monthlyContribution < 0 →
          (validateInputs i).monthlyContribution.isSome = true) ∧
        ((i.expectedReturn = 0 ∨ i.expectedReturn < -20 ∨ 50 < i.expectedReturn) →
          (validateInputs i).expectedReturn.isSome = true) ∧
        ((i.yearsToRetirement = 0 ∨ i.yearsToRetirement < 1 ∨ 70 < i.yearsToRetirement) →
          (validateInputs i).yearsToRetirement.isSome = true)) ∧
      ((validateInputs ⟨-1, 1000, 7, 0⟩).currentBalance.isSome = true ∧
        (validateInputs ⟨-1, 1000, 7, 0⟩).yearsToRetirement.isSome = true) := by
  refine ⟨fun i => ⟨?_, ?_, ?_, ?_⟩,
    by norm_num [validateInputs], by norm_num [validateInputs]⟩
  all_goals intro h
  all_goals simp only [validateInputs]
  all_goals rw [if_pos h]
  all_goals rfl

/-- Witness for C5: a concrete violation of the first rule is reported. -/
theorem validateInputs_reports_every_violation_witness :
    (((-1 : ℚ) = 0 ∨ (-1 : ℚ) < 0)) ∧
      (validateInputs ⟨-1, 1000, 7, 30⟩).currentBalance.isSome = true :=
  ⟨by norm_num,
    (validateInputs_reports_every_violation.1 ⟨-1, 1000, 7, 30⟩).1 (by norm_num)⟩

/-- Claim C9: `calculateMonthlyIncome 0 = 0`, the function is linear in its
present-value argument with a positive constant factor (the fixed
4%/240-payment annuity factor), and is therefore strictly increasing. -/
theorem calculateMonthlyIncome_linear :
    calculateMonthlyIncome 0 = 0 ∧
      (∃ k : ℚ, 0 < k ∧ ∀ pv : ℚ, calculateMonthlyIncome pv = k * pv) ∧
      StrictMono calculateMonthlyIncome := by
  have hb : (0 : ℚ) < (1 + 4 / 100 / 12) ^ (20 * 12) - 1 := by
    have h1 : (1 : ℚ) < (1 + 4 / 100 / 12) ^ (20 * 12) :=
      one_lt_pow₀ (by norm_num) (by norm_num)
    linarith
  set k : ℚ :=
    (4 / 100 / 12 * (1 + 4 / 100 / 12) ^ (20 * 12)) /
      ((1 + 4 / 100 / 12) ^ (20 * 12) - 1) with hk
  have hkpos : 0 < k := by
    apply div_pos _ hb
    positivity
  have hlin : ∀ pv : ℚ, calculateMonthlyIncome pv = k * pv := by
    intro pv
    simp only [calculateMonthlyIncome]
    rw [hk]
    ring
  refine ⟨by rw [hlin 0, mul_zero], ⟨k, hkpos, hlin⟩, ?_⟩
  intro a b hab
  rw [hlin a, hlin b]
  exact mul_lt_mul_of_pos_left hab hkpos

/-- Claim C6: when validation produces any error, `calculateResults` clears
every derived result (null result, empty scenarios, empty chart data);
otherwise it produces a complete result set — a populated base result,
exactly three scenarios, and a chart point for every year up to the cap. -/
theorem calculateResults_all_or_nothing (i : Inputs) :
    (hasErrors (validateInputs i) = true ∧ (calculateResults i).results = none ∧
        (calculateResults i).scenarios = [] ∧ (calculateResults i).chartData = []) ∨
      (hasErrors (validateInputs i) = false ∧
        (calculateResults i).results.isSome = true ∧
        (calculateResults i).scenarios.length = 3 ∧
        (calculateResults i).chartData.length = min i.yearsToRetirement 40 + 1) := by
  cases h : hasErrors (validateInputs i)
  · right
    refine ⟨rfl, ?_, ?_, ?_⟩ <;> simp [calculateResults, h]
  · left
    refine ⟨rfl, ?_, ?_, ?_⟩ <;> simp [calculateResults, h]

/-- Claim C7: on every validated input, the scenarios are exactly three, in
the order Conservative, Base Case, Optimistic, with annual rates
`max(base - 2, 1)`, `base`, and `base + 2` (unclamped). -/
theorem calculateResults_scenario_order (i : Inputs)
    (h : hasErrors (validateInputs i) = false) :
    (calculateResults i).scenarios.map Scenario.name =
        ["Conservative", "Base Case", "Optimistic"] ∧
      (calculateResults i).scenarios.map Scenario.rate =
        [max (i.expectedReturn - 2) 1, i.expectedReturn, i.expectedReturn + 2] := by
  constructor <;> simp [calculateResults, h]

/-- Witness for C7 at the default inputs (balance 50000, contribution 1000,
return 7%, 30 years), which pass validation. -/
theorem calculateResults_scenario_order_witness :
    (calculateResults ⟨50000, 1000, 7, 30⟩).scenarios.map Scenario.name =
      ["Conservative", "Base Case", "Optimistic"] :=
  (calculateResults_scenario_order ⟨50000, 1000, 7, 30⟩
    (by norm_num [validateInputs, hasErrors])).1

/-- Claim C8: on every validated input the chart series has exactly one
point per year from 0 to `min(yearsToRetirement, 40)` inclusive, each point
carrying, per scenario, the future value at that elapsed year rounded to the
nearest whole currency unit, while the end projected values of the
scenarios use the full `yearsToRetirement`. -/
theorem calculateResults_chart_series (i : Inputs)
    (h : hasErrors (validateInputs i) = false) :
    (calculateResults i).chartData.length = min i.yearsToRetirement 40 + 1 ∧
      (∀ k : ℕ, k < min i.yearsToRetirement 40 + 1 →
        (calculateResults i).chartData.get? k = some
          { year := k,
            balances := [
              ("Conservative",
                (calculateFutureValue i.currentBalance i.monthlyContribution
                  (max (i.expectedReturn - 2) 1) k).map jsRound),
              ("Base Case",
                (calculateFutureValue i.currentBalance i.monthlyContribution
                  i.expectedReturn k).map jsRound),
              ("Optimistic",
                (calculateFutureValue i.currentBalance i.monthlyContribution
                  (i.expectedReturn + 2) k).map jsRound)] }) ∧
      (calculateResults i).scenarios.map Scenario.projectedValue =
        [calculateFutureValue i.currentBalance i.monthlyContribution
            (max (i.expectedReturn - 2) 1) i.yearsToRetirement,
          calculateFutureValue i.currentBalance i.monthlyContribution
            i.expectedReturn i.yearsToRetirement,
          calculateFutureValue i.currentBalance i.monthlyContribution
            (i.expectedReturn + 2) i.yearsToRetirement] := by
  refine ⟨by simp [calculateResults, h], fun k hk => ?_, by simp [calculateResults, h]⟩
  simp only [calculateResults, h]
  simp only [Bool.false_eq_true, if_false]
  rw [List.get?_eq_getElem?, List.getElem?_map, List.getElem?_range hk]
  simp

/-- Witness for C8: with 70 years to retirement (validator-accepted), the
chart series has exactly 41 points (years 0 through 40). -/
theorem calculateResults_chart_series_witness :
    (calculateResults ⟨50000, 1000, 7, 70⟩).chartData.length = 41 := by
  have h := (calculateResults_chart_series ⟨50000, 1000, 7, 70⟩
    (by norm_num [validateInputs, hasErrors])).1
  have h70 : (⟨50000, 1000, 7, 70⟩ : Inputs).yearsToRetirement = 70 := rfl
  rw [h70] at h
  omega

/-- Claim C10: the input (50000, 1000, -2%, 30) passes validation, the
derived scenario rates are [1, -2, 0] (so the optimistic rate is exactly 0),
the optimistic rate is passed unchanged to `calculateFutureValue`, whose
unguarded contribution term divides by the zero monthly rate, making the
Optimistic projected value and monthly income non-finite (`none`). -/
theorem optimistic_rate_zero_not_finite :
    hasErrors (validateInputs ⟨50000, 1000, -2, 30⟩) = false ∧
      (calculateResults ⟨50000, 1000, -2, 30⟩).scenarios.map Scenario.rate =
        [1, -2, 0] ∧
      (calculateResults ⟨50000, 1000, -2, 30⟩).scenarios.map Scenario.projectedValue =
        [calculateFutureValue 50000 1000 1 30, calculateFutureValue 50000 1000 (-2) 30,
          calculateFutureValue 50000 1000 0 30] ∧
      calculateFutureValue 50000 1000 0 30 = none ∧
      (calculateResults ⟨50000, 1000, -2, 30⟩).scenarios.map Scenario.monthlyIncome =
        [(calculateFutureValue 50000 1000 1 30).map calculateMonthlyIncome,
          (calculateFutureValue 50000 1000 (-2) 30).map calculateMonthlyIncome,
          none] := by
  have hv : hasErrors (validateInputs ⟨50000, 1000, -2, 30⟩) = false := by
    norm_num [validateInputs, hasErrors]
  have hc : max ((-2 : ℚ) - 2) 1 = 1 := max_eq_right (by norm_num)
  have ho : (-2 : ℚ) + 2 = 0 := by norm_num
  have hfv : calculateFutureValue 50000 1000 0 30 = none := by
    norm_num [calculateFutureValue, jsDiv]
  refine ⟨hv, ?_, ?_, hfv, ?_⟩ <;>
    simp [calculateResults, hv, hc, ho, hfv]

/-- Claim C2: a validator-accepted input (100, 1, -2%, 1 year) on which the
code produces a non-finite monetary output: the optimistic scenario rate is
-2 + 2 = 0 and its projected value and monthly income are `none` (NaN),
refuting that every monetary output on the validated domain is a finite
non-negative real. -/
theorem validated_input_with_nan_output :
    hasErrors (validateInputs ⟨100, 1, -2, 1⟩) = false ∧
      (calculateResults ⟨100, 1, -2, 1⟩).scenarios.map Scenario.projectedValue =
        [calculateFutureValue 100 1 1 1, calculateFutureValue 100 1 (-2) 1,
          calculateFutureValue 100 1 0 1] ∧
      calculateFutureValue 100 1 0 1 = none ∧
      (calculateResults ⟨100, 1, -2, 1⟩).scenarios.map Scenario.monthlyIncome =
        [(calculateFutureValue 100 1 1 1).map calculateMonthlyIncome,
          (calculateFutureValue 100 1 (-2) 1).map calculateMonthlyIncome,
          none] := by
  have hv : hasErrors (validateInputs ⟨100, 1, -2, 1⟩) = false := by
    norm_num [validateInputs, hasErrors]
  have hc : max ((-2 : ℚ) - 2) 1 = 1 := max_eq_right (by norm_num)
  have ho : (-2 : ℚ) + 2 = 0 := by norm_num
  have hfv : calculateFutureValue 100 1 0 1 = none := by
    norm_num [calculateFutureValue, jsDiv]
  refine ⟨hv, ?_, hfv, ?_⟩ <;>
    simp [calculateResults, hv, hc, ho, hfv]
